import Mathlib

/-!
Formal model of the pypredict-mcp tool surface.

This file is a shallow embedding, in Lean 4, of the tool functions of
`src/pypredict_mcp/main.py` (the final raise-based variant of the module):

* `get_tle`, `get_name_from_norad_id`, `get_norad_id_from_name`,
  `get_latitude_longitude_from_location_name`, `get_weather_forecast` and
  `get_transits`, together with the error taxonomy of
  `src/pypredict_mcp/exceptions.py`.

External collaborators are modelled at their interface:

* HTTP responses become explicit records (status code plus decoded body);
  fallible tools return `Except PErr α` instead of raising.
* The orbital propagation black box (`predict.transits` composed with
  `Transit.above`) becomes a function from the `ending_before` bound to a
  list of already-clipped transit records carrying the fields the code
  reads (`start`, `end`, `duration()`, `peak()`, first/last sample
  azimuth).  Per the spec's data model, a clipped transit's duration is
  `end - start`.
* Python floats are modelled as rationals; `datetime.fromtimestamp` is
  modelled as the identity on epoch seconds (the spec leaves the UTC /
  local interpretation to the caller, and the conversion is order
  preserving).
* The `cachetools.cached` decorator becomes an explicit state-passing
  memoisation combinator.
-/

/-! ## String utilities mirroring the Python primitives used by the code -/

/-- Does `pat` occur at the head of `s`?  (Python `str.startswith`.) -/
def matchesHead : List Char → List Char → Bool
  | [], _ => true
  | _ :: _, [] => false
  | p :: ps, c :: cs => p = c && matchesHead ps cs

/-- Does `pat` occur contiguously anywhere in `s`?  (Python `pat in s`.) -/
def containsSeq (pat : List Char) : List Char → Bool
  | [] => matchesHead pat []
  | c :: cs => matchesHead pat (c :: cs) || containsSeq pat cs

/-- Python substring test `pat in s`. -/
def strContains (s pat : String) : Bool := containsSeq pat.toList s.toList

/-- Python `s.startswith(pat)`. -/
def strStarts (s pat : String) : Bool := matchesHead pat.toList s.toList

/-- The characters Python `str.rstrip()` removes (ASCII whitespace). -/
def isPySpace (c : Char) : Bool :=
  c = ' ' || c = '\t' || c = '\n' || c = '\r' || c = '\x0b' || c = '\x0c'

/-- Python `s.rstrip()`: drop trailing whitespace. -/
def pyRstrip (s : String) : String :=
  String.mk ((s.toList.reverse.dropWhile isPySpace).reverse)

/-- Python `s.replace("\r", "")`: replacing a single character by the empty
string removes every occurrence of that character. -/
def removeCR (s : String) : String :=
  String.mk (s.toList.filter (fun c => c ≠ '\r'))

/-! ## Error taxonomy (`src/pypredict_mcp/exceptions.py`) -/

/-- The three error kinds of the project, all subtypes of one root in the
source; a raising call is modelled as `Except.error` carrying one of these. -/
inductive PErr where
  | APIError (msg : String)
  | NoDataFoundError (msg : String)
  | ConfigurationError (msg : String)
deriving DecidableEq

/-- Is the outcome an `APIError`? -/
def isAPIError : Except PErr String → Bool
  | .error (.APIError _) => true
  | _ => false

/-- Is the outcome a `NoDataFoundError`? -/
def isNoData : Except PErr String → Bool
  | .error (.NoDataFoundError _) => true
  | _ => false

/-! ## HTTP response models -/

/-- An upstream text response as `get_tle` sees it:
status code and body text. -/
structure HttpTextResponse where
  status : Nat
  text : String
deriving DecidableEq

/-! ## get_tle (main.py lines 117-143) -/

/-- Shallow embedding of `get_tle`: non-200 status raises `APIError`;
a body containing the sentinel `"No data found"` raises `NoDataFoundError`;
otherwise the body is returned with carriage returns removed and trailing
whitespace stripped. -/
def getTle (resp : HttpTextResponse) : Except PErr String :=
  if resp.status ≠ 200 then
    .error (.APIError ("Unable to fetch TLE. Status code: " ++ toString resp.status))
  else if strContains resp.text "No data found" then
    .error (.NoDataFoundError "No TLE data found")
  else
    .ok (pyRstrip (removeCR resp.text))

/-! ### Cleanup lemmas -/

lemma toList_mk (l : List Char) : (String.mk l).toList = l := rfl

lemma pyRstrip_subset (s : String) :
    ∀ c ∈ (pyRstrip s).toList, c ∈ s.toList := by
  intro c hc
  unfold pyRstrip at hc
  rw [toList_mk] at hc
  rw [List.mem_reverse] at hc
  have hsub : (s.toList.reverse.dropWhile isPySpace).Sublist s.toList.reverse :=
    List.dropWhile_sublist _
  have := hsub.subset hc
  rwa [List.mem_reverse] at this

lemma removeCR_no_cr (s : String) : ∀ c ∈ (removeCR s).toList, c ≠ '\r' := by
  intro c hc
  unfold removeCR at hc
  rw [toList_mk] at hc
  have := List.of_mem_filter hc
  simpa using this

lemma head_dropWhile_not {p : α → Bool} :
    ∀ (l : List α) (a : α), (l.dropWhile p).head? = some a → p a = false := by
  intro l
  induction l with
  | nil => intro a h; simp [List.dropWhile] at h
  | cons x xs ih =>
    intro a h
    by_cases hx : p x = true
    · rw [List.dropWhile_cons_of_pos hx] at h
      exact ih a h
    · rw [List.dropWhile_cons_of_neg hx] at h
      simp at h
      subst h
      simpa using hx

lemma pyRstrip_lastNotSpace (s : String) :
    ∀ c, (pyRstrip s).toList.getLast? = some c → isPySpace c = false := by
  intro c hc
  unfold pyRstrip at hc
  rw [toList_mk, List.getLast?_reverse] at hc
  exact head_dropWhile_not _ _ hc

/-- C5 part: on success (`status = 200`, no sentinel) `get_tle` returns the
body cleaned of carriage returns and trailing whitespace; consequently the
returned string has no carriage return and does not end in whitespace. -/
theorem getTle_ok_clean (resp : HttpTextResponse) (s : String)
    (h : getTle resp = .ok s) :
    s = pyRstrip (removeCR resp.text) ∧
      (∀ c ∈ s.toList, c ≠ '\r') ∧
      (∀ c, s.toList.getLast? = some c → isPySpace c = false) := by
  unfold getTle at h
  by_cases h200 : resp.status ≠ 200
  · simp [h200] at h
  · by_cases hnd : strContains resp.text "No data found"
    · simp [h200, hnd] at h
    · simp [h200, hnd] at h
      subst h
      refine ⟨rfl, ?_, pyRstrip_lastNotSpace _⟩
      intro c hc
      exact removeCR_no_cr _ c (pyRstrip_subset _ c hc)

/-- C5: `get_tle` raises `APIError` exactly when the transport status is not
200; raises `NoDataFoundError` exactly when a transport-successful body
contains the sentinel `"No data found"`; and on success returns the body
with every carriage return removed and trailing whitespace stripped. -/
theorem C5_get_tle_contract (resp : HttpTextResponse) :
    (isAPIError (getTle resp) = true ↔ resp.status ≠ 200) ∧
    (isNoData (getTle resp) = true ↔
      (resp.status = 200 ∧ strContains resp.text "No data found" = true)) ∧
    (∀ s, getTle resp = .ok s →
      s = pyRstrip (removeCR resp.text) ∧
        (∀ c ∈ s.toList, c ≠ '\r') ∧
        (∀ c, s.toList.getLast? = some c → isPySpace c = false)) := by
  refine ⟨?_, ?_, fun s h => getTle_ok_clean resp s h⟩
  · by_cases h200 : resp.status = 200
    · by_cases hnd : strContains resp.text "No data found" <;>
        simp [getTle, isAPIError, h200, hnd]
    · simp [getTle, isAPIError, h200]
  · by_cases h200 : resp.status = 200
    · by_cases hnd : strContains resp.text "No data found" <;>
        simp [getTle, isNoData, h200, hnd]
    · simp [getTle, isNoData, h200]

/-- Concrete instance of `C5_get_tle_contract`: a 200 response with body
`"AB\rC  "` yields the cleaned TLE `"ABC"`. -/
theorem C5_witness : "ABC" = pyRstrip (removeCR "AB\rC  ") :=
  ((C5_get_tle_contract ⟨200, "AB\rC  "⟩).2.2 "ABC" (by rfl)).1

/-! ## get_norad_id_from_name (main.py lines 86-114) -/

/-- One record of the upstream satellite catalog JSON array, restricted to
the two keys the code reads. -/
structure SatRecord where
  OBJECT_NAME : String
  NORAD_CAT_ID : Int
deriving DecidableEq

/-- A decoded catalog response: status code and JSON array. -/
structure CatalogResponse where
  status : Nat
  data : List SatRecord
deriving DecidableEq

/-- Python `str.lower()`, character by character (identical to the source
behaviour on the ASCII catalog names involved). -/
def pyLower (s : String) : String := String.mk (s.toList.map Char.toLower)

/-- Shallow embedding of `get_norad_id_from_name`: non-200 status raises
`APIError`; otherwise the records are filtered locally by case-insensitive
substring containment of the queried name in `OBJECT_NAME` (Python
`name.lower() in sat["OBJECT_NAME"].lower()`), the surviving
`NORAD_CAT_ID`s are rendered as strings in response order, an empty
survivor list raises `NoDataFoundError`, and otherwise the ids are
comma-joined. -/
def getNoradIdFromName (name : String) (resp : CatalogResponse) : Except PErr String :=
  if resp.status ≠ 200 then
    .error (.APIError ("Unable to fetch satellite data. Status code: " ++ toString resp.status))
  else
    let results := (resp.data.filter
        (fun sat => strContains (pyLower sat.OBJECT_NAME) (pyLower name))).map
      (fun sat => toString sat.NORAD_CAT_ID)
    if results = [] then
      .error (.NoDataFoundError ("No satellite found with name containing " ++ name))
    else
      .ok (String.intercalate ", " results)

/-- The claim's description of the surviving identifiers: the ids (as
strings) of exactly those records whose `OBJECT_NAME` contains the queried
name case-insensitively, in upstream response order. -/
def matchingIds (name : String) (data : List SatRecord) : List String :=
  (data.filter (fun sat => strContains (pyLower sat.OBJECT_NAME) (pyLower name))).map
    (fun sat => toString sat.NORAD_CAT_ID)

lemma getNoradIdFromName_ok_case (name : String) (resp : CatalogResponse)
    (h : resp.status = 200) :
    getNoradIdFromName name resp =
      if matchingIds name resp.data = [] then
        .error (.NoDataFoundError ("No satellite found with name containing " ++ name))
      else
        .ok (String.intercalate ", " (matchingIds name resp.data)) := by
  unfold getNoradIdFromName matchingIds
  rw [if_neg (by simp [h])]

/-- C6: on a transport-successful catalog response,
`get_norad_id_from_name` raises `NoDataFoundError` exactly when no record
survives the local case-insensitive filter, and otherwise returns the
comma-join of the surviving ids in upstream order. -/
theorem C6_norad_ids (name : String) (resp : CatalogResponse)
    (h : resp.status = 200) :
    (isNoData (getNoradIdFromName name resp) = true ↔
      matchingIds name resp.data = []) ∧
    (matchingIds name resp.data ≠ [] →
      getNoradIdFromName name resp =
        .ok (String.intercalate ", " (matchingIds name resp.data))) := by
  rw [getNoradIdFromName_ok_case name resp h]
  by_cases hm : matchingIds name resp.data = []
  · rw [if_pos hm]
    exact ⟨by simp [isNoData, hm], fun hne => absurd hm hne⟩
  · rw [if_neg hm]
    exact ⟨by simp [isNoData, hm], fun _ => rfl⟩

/-- Concrete instance of `C6_norad_ids`: querying `"iss"` against a catalog
with `ISS (ZARYA)` and `STARLINK-30169` returns only the id 25544. -/
theorem C6_witness :
    getNoradIdFromName "iss" ⟨200, [⟨"ISS (ZARYA)", 25544⟩, ⟨"STARLINK-30169", 58225⟩]⟩ =
      .ok (String.intercalate ", "
        (matchingIds "iss" [⟨"ISS (ZARYA)", 25544⟩, ⟨"STARLINK-30169", 58225⟩])) :=
  (C6_norad_ids "iss" ⟨200, [⟨"ISS (ZARYA)", 25544⟩, ⟨"STARLINK-30169", 58225⟩]⟩ rfl).2
    (by decide)

/-! ## get_latitude_longitude_from_location_name (main.py lines 245-276) -/

/-- One record of the geocoding response array, restricted to the two keys
the code reads (the upstream returns coordinates as JSON strings). -/
structure GeoRecord where
  lat : String
  lon : String
deriving DecidableEq

/-- A decoded geocoding response: status code and ranked result array. -/
structure GeoResponse where
  status : Nat
  data : List GeoRecord
deriving DecidableEq

/-- Shallow embedding of `get_latitude_longitude_from_location_name`.  The
second component counts the HTTP requests issued.  An unset
`GEOCODE_API_KEY` (Python falsy check on the string setting, i.e. the
empty string) raises `ConfigurationError` before the request is made;
non-200 status raises `APIError`; an empty result list raises
`NoDataFoundError`; otherwise the first (highest-importance) record is
formatted. -/
def getLatitudeLongitudeFromLocationName (locationName apiKey : String)
    (resp : GeoResponse) : Except PErr String × Nat :=
  if apiKey = "" then
    (.error (.ConfigurationError "GEOCODE_API_KEY is not set in the environment variables."), 0)
  else if resp.status ≠ 200 then
    (.error (.APIError ("Unable to fetch location data. Status code: " ++ toString resp.status)), 1)
  else
    match resp.data with
    | [] => (.error (.NoDataFoundError ("No location data found for " ++ locationName ++ ".")), 1)
    | first :: _ =>
      (.ok ("Latitude: " ++ first.lat ++ ", Longitude: " ++ first.lon), 1)

/-- C7: with no geocode API key configured, the tool raises
`ConfigurationError` with zero HTTP requests issued; with a key, on a
transport-successful response it raises `NoDataFoundError` exactly when
the result list is empty, and otherwise returns the first result's
coordinates in the documented format. -/
theorem C7_geocode_contract (locationName apiKey : String) (resp : GeoResponse) :
    (apiKey = "" →
      getLatitudeLongitudeFromLocationName locationName apiKey resp =
        (.error (.ConfigurationError "GEOCODE_API_KEY is not set in the environment variables."), 0)) ∧
    (apiKey ≠ "" → resp.status = 200 →
      (isNoData (getLatitudeLongitudeFromLocationName locationName apiKey resp).1 = true ↔
        resp.data = []) ∧
      (∀ first rest, resp.data = first :: rest →
        getLatitudeLongitudeFromLocationName locationName apiKey resp =
          (.ok ("Latitude: " ++ first.lat ++ ", Longitude: " ++ first.lon), 1))) := by
  constructor
  · intro hk
    simp [getLatitudeLongitudeFromLocationName, hk]
  · intro hk h200
    unfold getLatitudeLongitudeFromLocationName
    rw [if_neg hk, if_neg (by simp [h200])]
    constructor
    · rcases hd : resp.data with _ | ⟨first, rest⟩ <;> simp [hd, isNoData]
    · intro first rest hd
      rw [hd]

/-- Concrete instance of `C7_geocode_contract`: an empty key raises before
any request, and with a key a one-record response formats that record. -/
theorem C7_witness :
    getLatitudeLongitudeFromLocationName "London" "" ⟨200, [⟨"51.5", "-0.1"⟩]⟩ =
      (.error (.ConfigurationError "GEOCODE_API_KEY is not set in the environment variables."), 0) ∧
    getLatitudeLongitudeFromLocationName "London" "key" ⟨200, [⟨"51.5", "-0.1"⟩]⟩ =
      (.ok ("Latitude: " ++ "51.5" ++ ", Longitude: " ++ "-0.1"), 1) :=
  ⟨(C7_geocode_contract "London" "" ⟨200, [⟨"51.5", "-0.1"⟩]⟩).1 rfl,
   ((C7_geocode_contract "London" "key" ⟨200, [⟨"51.5", "-0.1"⟩]⟩).2
      (by decide) rfl).2 ⟨"51.5", "-0.1"⟩ [] rfl⟩

/-! ## Transit engine (main.py lines 17-58 and 191-243) -/

/-- The result of clipping one propagation candidate above the horizon
angle (`transit.above(angle_above_horizon)` in the source): the fields the
code reads from the black-box `predict` object.  `endT` models the source
field `end` (a Lean keyword).  `peak()` is a dict with keys `epoch`,
`elevation` and `azimuth`; `firstAzimuth` and `lastAzimuth` are
`_samples[0]["azimuth"]` and `_samples[-1]["azimuth"]`. -/
structure ClippedTransit where
  start : ℚ
  endT : ℚ
  peakEpoch : ℚ
  peakElevation : ℚ
  peakAzimuth : ℚ
  firstAzimuth : ℚ
  lastAzimuth : ℚ
deriving DecidableEq

/-- The black box `Transit.duration()`, which the spec's data model fixes
as end minus start ("duration in seconds (derived: end − start)"). -/
def duration (t : ClippedTransit) : ℚ := t.endT - t.start

/-- Python `datetime.fromtimestamp`, modelled as the identity on epoch
seconds: the spec leaves UTC/local interpretation to the caller and the
conversion is order preserving. -/
def fromtimestamp (epoch : ℚ) : ℚ := epoch

/-- The `Transit` pydantic output model of the source, with naive
timestamps modelled as epoch seconds. -/
structure Transit where
  start_time : ℚ
  end_time : ℚ
  duration_seconds : ℚ
  max_elevation : ℚ
  culmination_time : ℚ
  start_azimuth : ℚ
  max_elevation_azimuth : ℚ
  end_azimuth : ℚ
  weather_forecast : String
deriving DecidableEq

/-- The record constructed by the loop body of `get_transits` for one
surviving clipped candidate; `weather` models the already-cached
`get_weather_forecast` call at the fixed observer location, applied to the
culmination time. -/
def mkTransit (weather : ℚ → String) (t : ClippedTransit) : Transit :=
  { start_time := fromtimestamp t.start
    end_time := fromtimestamp t.endT
    duration_seconds := duration t
    max_elevation := t.peakElevation
    culmination_time := fromtimestamp t.peakEpoch
    start_azimuth := t.firstAzimuth
    max_elevation_azimuth := t.peakAzimuth
    end_azimuth := t.lastAzimuth
    weather_forecast := weather (fromtimestamp t.peakEpoch) }

/-- The `for`-loop of `get_transits`: candidates whose clipped duration is
less than or equal to zero are skipped (`continue`), the others are
converted in order. -/
def getTransitsCore (weather : ℚ → String) : List ClippedTransit → List Transit
  | [] => []
  | t :: rest =>
    if duration t ≤ 0 then getTransitsCore weather rest
    else mkTransit weather t :: getTransitsCore weather rest

/-- The sentinel checked by the dead branch of `get_transits`. -/
def errMark : String := "Error:"

/-- Shallow embedding of `get_transits`.  `transitsSource` models the
black-box `predict.transits(tle, qth, ending_before=...)` composed with
per-candidate clipping `transit.above(angle_above_horizon)`, as a function
of the `ending_before` bound; `now` models `time.time()`.  The odd union
return type mirrors the source, which can return either the TLE string
(when it starts with `"Error:"`) or the list of transits. -/
def getTransits (tleResp : HttpTextResponse) (now : ℚ)
    (transitsSource : ℚ → List ClippedTransit) (weather : ℚ → String) :
    Except PErr (String ⊕ List Transit) :=
  match getTle tleResp with
  | .error e => .error e
  | .ok tle =>
    if strStarts tle errMark then .ok (.inl tle)
    else .ok (.inr (getTransitsCore weather (transitsSource (now + 60 * 60 * 24 * 1))))

/-! ### The loop is an order-preserving filter-map -/

lemma getTransitsCore_eq_filterMap (weather : ℚ → String)
    (l : List ClippedTransit) :
    getTransitsCore weather l =
      (l.filter (fun c => decide (0 < duration c))).map (mkTransit weather) := by
  induction l with
  | nil => rfl
  | cons t rest ih =>
    by_cases h : duration t ≤ 0
    · have hd : decide (0 < duration t) = false := by
        simp only [decide_eq_false_iff_not, not_lt]
        exact h
      simp [getTransitsCore, h, List.filter_cons, hd, ih]
    · have hd : decide (0 < duration t) = true := by
        simp only [decide_eq_true_eq]
        exact lt_of_not_le h
      simp [getTransitsCore, h, List.filter_cons, hd, ih]

/-- C2: when the TLE fetch succeeds (and the body does not start with the
dead-branch sentinel), `get_transits` asks the propagation source for
candidates ending before `now + 24h` and returns exactly the
order-preserving map over the subsequence of candidates with positive
clipped duration — no re-sorting. -/
theorem C2_transits_order (resp : HttpTextResponse) (now : ℚ)
    (src : ℚ → List ClippedTransit) (weather : ℚ → String) (tle : String)
    (h1 : getTle resp = .ok tle) (h2 : strStarts tle errMark = false) :
    getTransits resp now src weather =
      .ok (.inr (((src (now + 60 * 60 * 24 * 1)).filter
        (fun c => decide (0 < duration c))).map (mkTransit weather))) := by
  unfold getTransits
  rw [h1]
  simp [h2, getTransitsCore_eq_filterMap]

/-- Concrete instance of `C2_transits_order`: of two candidates, the
zero-duration one is dropped and the other is returned, in order. -/
theorem C2_witness :
    getTransits ⟨200, "1 25544"⟩ 0
        (fun _ => [⟨0, 100, 50, 80, 180, 90, 270⟩, ⟨5, 5, 5, 10, 0, 0, 0⟩])
        (fun _ => "w") =
      .ok (.inr ((([⟨0, 100, 50, 80, 180, 90, 270⟩,
            ⟨5, 5, 5, 10, 0, 0, 0⟩] : List ClippedTransit).filter
          (fun c => decide (0 < duration c))).map (mkTransit (fun _ => "w")))) :=
  C2_transits_order ⟨200, "1 25544"⟩ 0
    (fun _ => [⟨0, 100, 50, 80, 180, 90, 270⟩, ⟨5, 5, 5, 10, 0, 0, 0⟩])
    (fun _ => "w") "1 25544" (by rfl) (by rfl)

/-! ### C1: the returned-window invariant -/

/-- C1 (amended): every returned transit has positive duration and
`start_time < end_time`; the strict three-way ordering
`start_time < culmination_time < end_time` additionally holds whenever
every candidate's peak epoch lies strictly inside its clipped interval
(the code itself never checks the peak's position). -/
theorem C1_transit_invariant (weather : ℚ → String)
    (cands : List ClippedTransit) (tr : Transit)
    (htr : tr ∈ getTransitsCore weather cands) :
    0 < tr.duration_seconds ∧ tr.start_time < tr.end_time ∧
      ((∀ c ∈ cands, c.start < c.peakEpoch ∧ c.peakEpoch < c.endT) →
        tr.start_time < tr.culmination_time ∧
          tr.culmination_time < tr.end_time) := by
  induction cands with
  | nil => simp [getTransitsCore] at htr
  | cons t rest ih =>
    by_cases hle : duration t ≤ 0
    · rw [show getTransitsCore weather (t :: rest) =
          getTransitsCore weather rest by simp [getTransitsCore, hle]] at htr
      obtain ⟨h1, h2, h3⟩ := ih htr
      exact ⟨h1, h2, fun hall => h3 (fun c hc => hall c (List.mem_cons_of_mem _ hc))⟩
    · rw [show getTransitsCore weather (t :: rest) =
          mkTransit weather t :: getTransitsCore weather rest by
            simp [getTransitsCore, hle]] at htr
      rcases List.mem_cons.mp htr with heq | hmem
      · subst heq
        have hpos : 0 < duration t := lt_of_not_le hle
        refine ⟨by simpa [mkTransit] using hpos, ?_, ?_⟩
        · have : t.start < t.endT := by
            have := hpos
            unfold duration at this
            linarith
          simpa [mkTransit, fromtimestamp] using this
        · intro hall
          have := hall t (List.mem_cons_self t rest)
          constructor <;> simp [mkTransit, fromtimestamp] <;> linarith [this.1, this.2]
      · obtain ⟨h1, h2, h3⟩ := ih hmem
        exact ⟨h1, h2, fun hall => h3 (fun c hc => hall c (List.mem_cons_of_mem _ hc))⟩

/-- A clipped candidate whose peak sits exactly at the clipped start (a
pass already descending when it crosses the elevation threshold). -/
def cexCand : ClippedTransit := ⟨0, 10, 0, 45, 180, 90, 270⟩

/-- C1 counterexample: with that candidate the returned window has
`culmination_time = start_time`, refuting the claimed strict ordering
`start_time < culmination_time < end_time` for every returned transit. -/
theorem C1_counterexample :
    ¬ (∀ trs, getTransits ⟨200, "1 25544"⟩ 0 (fun _ => [cexCand]) (fun _ => "na") =
          .ok (.inr trs) →
        ∀ tr ∈ trs, tr.start_time < tr.culmination_time ∧
          tr.culmination_time < tr.end_time) := by
  intro h
  have h1 := h (getTransitsCore (fun _ => "na") [cexCand]) rfl
  have h2 := h1 (mkTransit (fun _ => "na") cexCand)
    (by simp [getTransitsCore, cexCand, duration])
  have h3 : (mkTransit (fun _ => "na") cexCand).start_time =
      (mkTransit (fun _ => "na") cexCand).culmination_time := by
    simp [mkTransit, cexCand, fromtimestamp]
  exact absurd (h3 ▸ h2.1) (lt_irrefl _)

/-- Concrete instance of `C1_transit_invariant`: a candidate with its peak
strictly inside the clipped interval yields a window satisfying the full
strict ordering. -/
theorem C1_witness :
    0 < (mkTransit (fun _ => "w") ⟨0, 100, 50, 80, 180, 90, 270⟩).duration_seconds ∧
      (mkTransit (fun _ => "w") ⟨0, 100, 50, 80, 180, 90, 270⟩).start_time <
        (mkTransit (fun _ => "w") ⟨0, 100, 50, 80, 180, 90, 270⟩).end_time ∧
      ((∀ c ∈ ([⟨0, 100, 50, 80, 180, 90, 270⟩] : List ClippedTransit),
          c.start < c.peakEpoch ∧ c.peakEpoch < c.endT) →
        (mkTransit (fun _ => "w") ⟨0, 100, 50, 80, 180, 90, 270⟩).start_time <
            (mkTransit (fun _ => "w") ⟨0, 100, 50, 80, 180, 90, 270⟩).culmination_time ∧
          (mkTransit (fun _ => "w") ⟨0, 100, 50, 80, 180, 90, 270⟩).culmination_time <
            (mkTransit (fun _ => "w") ⟨0, 100, 50, 80, 180, 90, 270⟩).end_time) :=
  C1_transit_invariant (fun _ => "w") [⟨0, 100, 50, 80, 180, 90, 270⟩]
    (mkTransit (fun _ => "w") ⟨0, 100, 50, 80, 180, 90, 270⟩)
    (by simp [getTransitsCore, duration])

/-! ### C4: dependency errors surface unchanged -/

/-- C4: if the TLE fetch fails with any taxonomy error, `get_transits`
propagates that same error unchanged and produces no partial result. -/
theorem C4_error_propagation (resp : HttpTextResponse) (now : ℚ)
    (src : ℚ → List ClippedTransit) (weather : ℚ → String) (e : PErr)
    (h : getTle resp = .error e) :
    getTransits resp now src weather = .error e := by
  unfold getTransits
  rw [h]

/-- Concrete instance of `C4_error_propagation`: a 500 TLE response makes
`get_transits` fail with the very `APIError` raised by `get_tle`. -/
theorem C4_witness :
    getTransits ⟨500, "x"⟩ 0 (fun _ => []) (fun _ => "") =
      .error (.APIError "Unable to fetch TLE. Status code: 500") :=
  C4_error_propagation ⟨500, "x"⟩ 0 (fun _ => []) (fun _ => "")
    (.APIError "Unable to fetch TLE. Status code: 500") (by rfl)

/-! ### C10: the raise-only contract and the dead branch -/

/-- C10 counterexample: a transport-successful TLE body that itself begins
with `"Error:"` (and lacks the no-data sentinel) is returned verbatim by
`get_tle`, so the supposedly unreachable branch of `get_transits` fires
and the tool returns an error-shaped string instead of a transit list. -/
theorem C10_counterexample :
    getTle ⟨200, "Error: fake"⟩ = .ok "Error: fake" ∧
      getTransits ⟨200, "Error: fake"⟩ 0 (fun _ => []) (fun _ => "") =
        .ok (.inl "Error: fake") :=
  ⟨rfl, rfl⟩

/-- C10 (amended): `get_tle` raises on every failure (non-200 status or
sentinel body) and never fabricates an error string itself; the
`"Error:"` branch of `get_transits` is taken exactly when `get_tle`
succeeds with a cleaned body that already begins with `"Error:"` — which
only an upstream 200-response body shaped that way can produce. -/
theorem C10_raise_contract (resp : HttpTextResponse) (now : ℚ)
    (src : ℚ → List ClippedTransit) (weather : ℚ → String) :
    ((∃ e, getTle resp = .error e) ↔
      (resp.status ≠ 200 ∨ strContains resp.text "No data found" = true)) ∧
    (∀ s, getTransits resp now src weather = .ok (.inl s) ↔
      (getTle resp = .ok s ∧ strStarts s errMark = true)) := by
  constructor
  · by_cases h200 : resp.status = 200
    · by_cases hnd : strContains resp.text "No data found" <;>
        simp [getTle, h200, hnd]
    · simp [getTle, h200]
  · intro s
    unfold getTransits
    rcases hg : getTle resp with e | tle
    · simp
    · by_cases hs : strStarts tle errMark = true
      · simp only [hs, if_true]
        constructor
        · intro h
          have : tle = s := by
            injection h with h2
            injection h2
          exact ⟨this ▸ rfl, this ▸ hs⟩
        · rintro ⟨h1, _⟩
          have : tle = s := by injection h1
          rw [this]
      · simp only [Bool.not_eq_true] at hs
        simp only [hs, Bool.false_eq_true, if_false]
        constructor
        · intro h
          simp at h
        · rintro ⟨h1, h2⟩
          have : tle = s := by injection h1
          rw [this] at hs
          rw [hs] at h2
          exact absurd h2 (by simp)

/-- Concrete instance of `C10_raise_contract` at a failing input: a 404
response admits a taxonomy error (and the branch equivalence holds). -/
theorem C10_witness :
    (getTransits ⟨404, "x"⟩ 0 (fun _ => []) (fun _ => "") = .ok (.inl "z") ↔
      (getTle ⟨404, "x"⟩ = .ok "z" ∧ strStarts "z" errMark = true)) :=
  (C10_raise_contract ⟨404, "x"⟩ 0 (fun _ => []) (fun _ => "")).2 "z"

/-! ## get_weather_forecast (main.py lines 146-188) -/

/-- A naive Python `datetime` restricted to the fields the weather query
formats (`strftime("%Y-%m-%dT%H:00")` also zeroes the minutes, which is
the truncation to the hour). -/
structure PyDatetime where
  year : Nat
  month : Nat
  day : Nat
  hour : Nat
  minute : Nat
  second : Nat
deriving DecidableEq

/-- Zero-padded two-digit rendering (`strftime` `%m`, `%d`, `%H`). -/
def pad2 (n : Nat) : String := if n < 10 then "0" ++ toString n else toString n

/-- Zero-padded four-digit rendering (`strftime` `%Y`). -/
def pad4 (n : Nat) : String :=
  if n < 10 then "000" ++ toString n
  else if n < 100 then "00" ++ toString n
  else if n < 1000 then "0" ++ toString n
  else toString n

/-- The lookup key `time_dt.strftime("%Y-%m-%dT%H:00")` built by the code:
the requested instant truncated to the hour. -/
def hourBucket (d : PyDatetime) : String :=
  pad4 d.year ++ "-" ++ pad2 d.month ++ "-" ++ pad2 d.day ++ "T" ++ pad2 d.hour ++ ":00"

/-- Truncation of a datetime to its hour. -/
def truncHour (d : PyDatetime) : PyDatetime := { d with minute := 0, second := 0 }

/-- Python `list.index` returning the first position, `none` on absence
(the code catches the `ValueError`). -/
def idxOf : List String → String → Option Nat
  | [], _ => none
  | x :: xs, s => if x = s then some 0 else (idxOf xs s).map (· + 1)

/-- The `hourly` object of the open-meteo response, each key optional
because the code tests for its presence. -/
structure HourlyData where
  time : Option (List String)
  cloud_cover : Option (List Int)
deriving DecidableEq

/-- The decoded open-meteo JSON body. -/
structure WeatherData where
  hourly : Option HourlyData
deriving DecidableEq

/-- The observable outcomes of the weather HTTP call as the `try` blocks
of the code distinguish them: an `httpx.HTTPStatusError` from
`raise_for_status`, any other exception (transport or parse), or a decoded
body. -/
inductive WeatherResponse where
  | transportError (msg : String)
  | otherFailure (msg : String)
  | success (data : WeatherData)
deriving DecidableEq

/-- Shallow embedding of `get_weather_forecast`: a total function — every
failure is converted to a descriptive string, mirroring the source's
`try`/`except` structure, the presence checks on `hourly`/`time`/
`cloud_cover`, the `list.index` lookup of the hour bucket and the
indexing of `cloud_cover` (whose `ValueError`/`IndexError` are caught). -/
def getWeatherForecast (latitude longitude : ℚ) (time_dt : PyDatetime)
    (resp : WeatherResponse) : String :=
  match resp with
  | .transportError e => "Weather API request failed: " ++ e
  | .otherFailure e => "An error occurred while fetching weather: " ++ e
  | .success data =>
    match data.hourly with
    | none => "Weather data not available."
    | some h =>
      match h.time with
      | none => "Weather data not available."
      | some times =>
        match h.cloud_cover with
        | none => "Weather data not available."
        | some covers =>
          match idxOf times (hourBucket time_dt) with
          | none => "Forecast for the specific hour not found."
          | some i =>
            match covers[i]? with
            | none => "Forecast for the specific hour not found."
            | some cc => toString cc ++ "% cloud cover"

/-- C3: `get_weather_forecast` is total (never raises) and each failure
mode yields its distinct descriptive string: transport failure, missing
`hourly`/`time`/`cloud_cover` fields, and a missing (or out-of-range)
exact-hour bucket; on success it returns `"<percent>% cloud cover"` for
the bucket keyed by the requested time truncated to the hour. -/
theorem C3_weather_never_raises (lat lon : ℚ) (dt : PyDatetime) :
    (∀ e, getWeatherForecast lat lon dt (.transportError e) =
      "Weather API request failed: " ++ e) ∧
    (∀ e, getWeatherForecast lat lon dt (.otherFailure e) =
      "An error occurred while fetching weather: " ++ e) ∧
    (getWeatherForecast lat lon dt (.success ⟨none⟩) = "Weather data not available.") ∧
    (∀ covers, getWeatherForecast lat lon dt (.success ⟨some ⟨none, covers⟩⟩) =
      "Weather data not available.") ∧
    (∀ times, getWeatherForecast lat lon dt (.success ⟨some ⟨some times, none⟩⟩) =
      "Weather data not available.") ∧
    (∀ times covers, idxOf times (hourBucket dt) = none →
      getWeatherForecast lat lon dt (.success ⟨some ⟨some times, some covers⟩⟩) =
        "Forecast for the specific hour not found.") ∧
    (∀ times covers i, idxOf times (hourBucket dt) = some i → covers[i]? = none →
      getWeatherForecast lat lon dt (.success ⟨some ⟨some times, some covers⟩⟩) =
        "Forecast for the specific hour not found.") ∧
    (∀ times covers i cc, idxOf times (hourBucket dt) = some i → covers[i]? = some cc →
      getWeatherForecast lat lon dt (.success ⟨some ⟨some times, some covers⟩⟩) =
        toString cc ++ "% cloud cover") ∧
    (hourBucket dt = hourBucket (truncHour dt)) := by
  refine ⟨fun e => rfl, fun e => rfl, rfl, fun covers => rfl, fun times => rfl,
    ?_, ?_, ?_, rfl⟩
  · intro times covers hidx
    simp [getWeatherForecast, hidx]
  · intro times covers i hidx hcc
    simp [getWeatherForecast, hidx, hcc]
  · intro times covers i cc hidx hcc
    simp [getWeatherForecast, hidx, hcc]

/-- Concrete instance of `C3_weather_never_raises`: requesting
2025-01-02 03:40 against an hourly axis containing `2025-01-02T03:00`
returns the bucket's cloud cover. -/
theorem C3_witness :
    getWeatherForecast 0 0 ⟨2025, 1, 2, 3, 40, 0⟩
        (.success ⟨some ⟨some ["2025-01-02T02:00", "2025-01-02T03:00"], some [10, 42]⟩⟩) =
      toString (42 : Int) ++ "% cloud cover" :=
  (C3_weather_never_raises 0 0 ⟨2025, 1, 2, 3, 40, 0⟩).2.2.2.2.2.2.2.1
    ["2025-01-02T02:00", "2025-01-02T03:00"] [10, 42] 1 (42 : Int)
    (by decide) (by decide)

/-! ## Cache layer (`cachetools` decorators on main.py lines 62, 87, 118, 147, 246) -/

/-- Association lookup standing for the cache's key access. -/
def lookupKV {K V : Type} [DecidableEq K] : List (K × V) → K → Option V
  | [], _ => none
  | (k0, v0) :: rest, k => if k0 = k then some v0 else lookupKV rest k

/-- The `cachetools.cached` wrapper, state-passing: try the cache, on a
miss call the function, and store only a normally returned value — in the
library the store happens after the wrapped call returns, so an exception
propagates before any cache write.  Capacity and recency bookkeeping are
orthogonal to this path and omitted. -/
def cachedCall {K V E : Type} [DecidableEq K] (f : K → Except E V)
    (cache : List (K × V)) (k : K) : Except E V × List (K × V) :=
  match lookupKV cache k with
  | some v => (.ok v, cache)
  | none =>
    match f k with
    | .ok v => (.ok v, (k, v) :: cache)
    | .error e => (.error e, cache)

/-- C8: a cached call whose underlying fetch raises leaves the cache state
unchanged — the failure is not memoized — so a subsequent call with the
same argument performs the underlying fetch again and obtains its fresh
result instead of replaying the failure. -/
theorem C8_failures_not_cached {K V E : Type} [DecidableEq K]
    (f : K → Except E V) (cache : List (K × V)) (k : K) (e : E)
    (hmiss : lookupKV cache k = none) (hf : f k = .error e) :
    cachedCall f cache k = (.error e, cache) ∧
      (∀ (f2 : K → Except E V) (v : V), f2 k = .ok v →
        (cachedCall f2 (cachedCall f cache k).2 k).1 = .ok v) := by
  have h1 : cachedCall f cache k = (.error e, cache) := by
    unfold cachedCall
    rw [hmiss, hf]
  refine ⟨h1, ?_⟩
  intro f2 v hf2
  rw [h1]
  unfold cachedCall
  rw [hmiss, hf2]

/-- Concrete instance of `C8_failures_not_cached` with the TLE fetch: a
failing fetch caches nothing and a later successful fetch is served. -/
theorem C8_witness :
    (cachedCall (fun nid : String => getTle ⟨500, nid⟩) [] "25544" =
      (.error (.APIError "Unable to fetch TLE. Status code: 500"), [])) ∧
    ((cachedCall (fun _ : String => (.ok "TLE" : Except PErr String))
        (cachedCall (fun nid : String => getTle ⟨500, nid⟩) [] "25544").2
        "25544").1 = .ok "TLE") :=
  ⟨(C8_failures_not_cached (fun nid : String => getTle ⟨500, nid⟩) []
      "25544" (.APIError "Unable to fetch TLE. Status code: 500") rfl rfl).1,
   (C8_failures_not_cached (fun nid : String => getTle ⟨500, nid⟩) []
      "25544" (.APIError "Unable to fetch TLE. Status code: 500") rfl rfl).2
     (fun _ => .ok "TLE") "TLE" rfl⟩

/-! ## Per-operation cache policies (C9) -/

/-- The two `cachetools` policies the module uses, with their parameters. -/
inductive CachePolicy where
  | lru (maxsize : Nat)
  | ttl (maxsize : Nat) (ttlSeconds : Nat)
deriving DecidableEq

/-- main.py line 62: `@cached(cache=LRUCache(maxsize=100))`. -/
def cachePolicy_get_name_from_norad_id : CachePolicy := .lru 100

/-- main.py line 87: `@cached(cache=LRUCache(maxsize=100))`. -/
def cachePolicy_get_norad_id_from_name : CachePolicy := .lru 100

/-- main.py line 118: `@cached(cache=TTLCache(maxsize=100, ttl=60*60*2))`. -/
def cachePolicy_get_tle : CachePolicy := .ttl 100 (60 * 60 * 2)

/-- main.py line 147: `@cached(cache=LRUCache(maxsize=100))`. -/
def cachePolicy_get_weather_forecast : CachePolicy := .lru 100

/-- main.py line 246: `@cached(cache=LRUCache(maxsize=100))`. -/
def cachePolicy_get_latitude_longitude_from_location_name : CachePolicy := .lru 100

/-- C9 counterexample: the weather lookup is not behind any time-to-live
cache — its decorator is a plain capacity-100 LRU cache, so a cached
weather entry has no age bound at all. -/
theorem C9_counterexample :
    cachePolicy_get_weather_forecast = CachePolicy.lru 100 ∧
      ¬ ∃ m t, cachePolicy_get_weather_forecast = CachePolicy.ttl m t := by
  refine ⟨rfl, ?_⟩
  rintro ⟨m, t, h⟩
  exact CachePolicy.noConfusion h

/-- C9 (amended): identity resolution (both directions), geocoding and
also the weather lookup use a capacity-100 least-recently-used cache with
no time expiry; only the orbital-element fetch uses a capacity-100 cache
with a 2-hour (7200 s) time-to-live. -/
theorem C9_cache_policies :
    cachePolicy_get_name_from_norad_id = CachePolicy.lru 100 ∧
      cachePolicy_get_norad_id_from_name = CachePolicy.lru 100 ∧
      cachePolicy_get_latitude_longitude_from_location_name = CachePolicy.lru 100 ∧
      cachePolicy_get_tle = CachePolicy.ttl 100 7200 ∧
      cachePolicy_get_weather_forecast = CachePolicy.lru 100 :=
  ⟨rfl, rfl, rfl, rfl, rfl⟩
